import Mathlib

/-!
Shallow embedding of the data model and operations of the
`back_end` package (SQLAlchemy models, Pydantic schemas, FastAPI routes),
with theorems checking the natural-language specification against it.

Sources embedded:
- `back_end/database/sqlalchemy_models/users_sqla_model.py`
- `back_end/database/sqlalchemy_models/base_sqla_model.py`
- `back_end/api/pydantic_models/routes/users_routes.py`
- `back_end/api/pydantic_models/users_pyda_model.py`
-/

namespace AngryPlatypus

/-! ## Python dict model

`custom_fields` and `field_schema` are JSONB documents manipulated in
Python as `dict`s.  A `dict` is modelled as an association list with
unique keys in insertion order; `dictInsert` models `d[k] = v`
(replace in place if the key exists, else append), `dictGet` models
`d.get(k, default)`, and `dictLookup`/`dictKeys` are the observation
helpers used to state properties about documents. -/

/-- Model of Python `d[k] = v` on a dict represented as an association
list in insertion order: an existing key keeps its position and gets the
new value; a new key is appended at the end. -/
def dictInsert {V : Type} : List (String × V) → String → V → List (String × V)
  | [], k, v => [(k, v)]
  | (k', v') :: rest, k, v =>
      if k' = k then (k', v) :: rest else (k', v') :: dictInsert rest k v

/-- Model of Python `d.get(k, default)`: the stored value when the key is
present, the supplied default otherwise. -/
def dictGet {V : Type} : List (String × V) → String → V → V
  | [], _, dflt => dflt
  | (k', v') :: rest, k, dflt => if k' = k then v' else dictGet rest k dflt

/-- Observation: the value a dict associates to a key, if any. -/
def dictLookup {V : Type} : List (String × V) → String → Option V
  | [], _ => none
  | (k', v') :: rest, k => if k' = k then some v' else dictLookup rest k

/-- Observation: the keys of a dict. -/
def dictKeys {V : Type} (d : List (String × V)) : List String :=
  d.map Prod.fst

/-! ## User state for the custom-field operations

`User.custom_fields` is a nullable JSONB column (`Column(JSONB,
nullable=True, default=dict)`).  Because the spec distinguishes
"constructs and assigns a new document value" from in-place mutation,
each Python dict object carries an object identity `oid`; `next_oid` is
the allocation counter, and every allocation (`{}` or `dict(...)`)
consumes a fresh oid.  `flagged` records the attribute names passed to
SQLAlchemy's `flag_modified`. -/

/-- A Python dict object: its object identity and its contents. -/
structure PyDict (V : Type) where
  oid : Nat
  entries : List (String × V)
  deriving DecidableEq, Repr

/-- The part of a `User` ORM instance's state that the custom-field
operations read and write. -/
structure UserState (V : Type) where
  custom_fields : Option (PyDict V)
  flagged : List String
  next_oid : Nat
  deriving DecidableEq, Repr

/-- Model of `sqlalchemy.orm.attributes.flag_modified(self, attr)`:
record that the named attribute was explicitly marked as changed. -/
def flag_modified (flags : List String) (attr : String) : List String :=
  flags ++ [attr]

/-- Embedding of the module-level function `set_custom_field(self,
field_name, value)` in `users_sqla_model.py` (lines 148-155):

    if self.custom_fields is None:
        self.custom_fields = {}
    fields = dict(self.custom_fields)  # Create a new dict
    fields[field_name] = value
    self.custom_fields = fields
    flag_modified(self, 'custom_fields')

Each dict construction (`{}` and `dict(...)`) allocates a fresh object
identity. -/
def set_custom_field {V : Type} (u : UserState V) (field_name : String) (value : V) :
    UserState V :=
  match u.custom_fields with
  | none =>
      -- `self.custom_fields = {}` allocates oid `u.next_oid`;
      -- `dict(self.custom_fields)` copies it into a fresh dict.
      { u with
        custom_fields := some ⟨u.next_oid + 1, dictInsert [] field_name value⟩
        flagged := flag_modified u.flagged "custom_fields"
        next_oid := u.next_oid + 2 }
  | some d =>
      { u with
        custom_fields := some ⟨u.next_oid, dictInsert d.entries field_name value⟩
        flagged := flag_modified u.flagged "custom_fields"
        next_oid := u.next_oid + 1 }

/-- Embedding of the method `User.get_custom_field(self, field_name,
default=None)` in `users_sqla_model.py` (lines 142-146):

    if self.custom_fields is not None:
        return self.custom_fields.get(field_name, default)
    return default

The returned pair is (return value, state of `self` afterwards). -/
def get_custom_field {V : Type} (u : UserState V) (field_name : String) (dflt : V) :
    V × UserState V :=
  match u.custom_fields with
  | some d => (dictGet d.entries field_name dflt, u)
  | none => (dflt, u)

/-- The contents of the user's `custom_fields` document, ignoring
object identity; `none` models SQL NULL. -/
def customFieldsDoc {V : Type} (u : UserState V) : Option (List (String × V)) :=
  u.custom_fields.map PyDict.entries

/-- Well-formed allocation state: every live dict object has an oid below
the allocation counter. -/
def UserStateWF {V : Type} (u : UserState V) : Prop :=
  ∀ d, u.custom_fields = some d → d.oid < u.next_oid

/-- Property bundle for `set_custom_field` (claim C1): the resulting
document stores `value` under `field_name`, leaves every other key
unchanged, is a freshly constructed dict object (not the prior one),
the containing document is flagged as modified, and an absent (`None`)
document is first initialized empty before storing. -/
def SetCustomFieldSpec {V : Type} (u : UserState V) (field_name : String) (value : V) :
    Prop :=
  ∃ d', (set_custom_field u field_name value).custom_fields = some d' ∧
    dictLookup d'.entries field_name = some value ∧
    (∀ k, k ≠ field_name →
      dictLookup d'.entries k = dictLookup ((customFieldsDoc u).getD []) k) ∧
    "custom_fields" ∈ (set_custom_field u field_name value).flagged ∧
    (∀ d, u.custom_fields = some d → d'.oid ≠ d.oid) ∧
    (u.custom_fields = none → d'.entries = dictInsert [] field_name value)

/-- Property bundle for `get_custom_field` (claim C10): the call leaves
the user state unchanged and returns the default when the document is
absent or lacks the key, and the stored value when the key is present. -/
def GetCustomFieldSpec {V : Type} (u : UserState V) (field_name : String) (dflt : V) :
    Prop :=
  (get_custom_field u field_name dflt).2 = u ∧
  (u.custom_fields = none → (get_custom_field u field_name dflt).1 = dflt) ∧
  (∀ d, u.custom_fields = some d → field_name ∉ dictKeys d.entries →
    (get_custom_field u field_name dflt).1 = dflt) ∧
  (∀ d v, u.custom_fields = some d → dictLookup d.entries field_name = some v →
    (get_custom_field u field_name dflt).1 = v)

/-! ## Enumerations and their persisted representations

`users_sqla_model.py` declares two Python `enum.Enum` classes.  A Python
enum member has a `.name` (the member identifier) and a `.value` (the
assigned string).  SQLAlchemy's `Enum` column type persists the member
`.name` by default; when `values_callable` is supplied it persists the
strings that callable returns instead. -/

/-- Embedding of `class UserRole(enum.Enum)` (users_sqla_model.py lines
8-15): `ADMIN = "admin"`, `USER = "user"`. -/
inductive UserRole
  | ADMIN
  | USER
  deriving DecidableEq, Repr

/-- The Python `.value` of a `UserRole` member. -/
def UserRole.value : UserRole → String
  | .ADMIN => "admin"
  | .USER => "user"

/-- The Python `.name` of a `UserRole` member. -/
def UserRole.memberName : UserRole → String
  | .ADMIN => "ADMIN"
  | .USER => "USER"

/-- Embedding of `class MilitaryBranch(enum.Enum)` (users_sqla_model.py
lines 158-165). -/
inductive MilitaryBranch
  | ARMY
  | NAVY
  | AIR_FORCE
  | MARINES
  | SPACE_FORCE
  | COAST_GUARD
  deriving DecidableEq, Repr

/-- The Python `.value` of a `MilitaryBranch` member. -/
def MilitaryBranch.value : MilitaryBranch → String
  | .ARMY => "army"
  | .NAVY => "navy"
  | .AIR_FORCE => "air_force"
  | .MARINES => "marines"
  | .SPACE_FORCE => "space_force"
  | .COAST_GUARD => "coast_guard"

/-- The Python `.name` of a `MilitaryBranch` member. -/
def MilitaryBranch.memberName : MilitaryBranch → String
  | .ARMY => "ARMY"
  | .NAVY => "NAVY"
  | .AIR_FORCE => "AIR_FORCE"
  | .MARINES => "MARINES"
  | .SPACE_FORCE => "SPACE_FORCE"
  | .COAST_GUARD => "COAST_GUARD"

/-- The string stored in the database for the `User.role` column.  The
column is declared `SQLEnum(UserRole, values_callable=lambda x:
[e.value for e in x])` (users_sqla_model.py lines 84-88): with
`values_callable`, SQLAlchemy persists each member's `.value`. -/
def roleStoredValue (r : UserRole) : String :=
  r.value

/-- The string stored in the database for the `MilitaryUser.branch`
column.  The column is declared `SQLEnum(MilitaryBranch)` with no
`values_callable` (users_sqla_model.py line 185): by default SQLAlchemy
persists each member's `.name`. -/
def branchStoredValue (b : MilitaryBranch) : String :=
  MilitaryBranch.memberName b

/-! ## Relational schema model

The tables and constraints declared by the models in
`users_sqla_model.py` and `base_sqla_model.py`.  The insert and delete
operations model the database engine enforcing the declared
constraints (primary keys, `unique=True`, `nullable=False`) and the
ORM's joined-table-inheritance behaviour for `MilitaryUser`. -/

/-- Constraint violations raised by the database engine. -/
inductive DBError
  | UniqueViolation
  | NotNullViolation
  deriving DecidableEq, Repr

/-- A row of the `users` table (users_sqla_model.py lines 66-135),
restricted to the columns the claims are about.  `user_type` is the
polymorphic discriminator column (line 94, nullable). -/
structure UserRow where
  id : Nat
  email : String
  user_type : Option String
  deriving DecidableEq, Repr

/-- A row of the `military_users` table (lines 168-191): `id` is both
the primary key and a foreign key into `users.id` (line 179). -/
structure MilitaryRow where
  id : Nat
  branch : Option MilitaryBranch
  deriving DecidableEq, Repr

/-- A row of the `user_type_definitions` table (lines 18-64).  `name`
is declared `String(100), nullable=False` (line 30); `Option` models
SQL NULL. -/
structure TypeDefRow where
  id : Nat
  name : Option String
  is_active : Bool
  deriving DecidableEq, Repr

/-- The database state: the three declared tables. -/
structure DB where
  users : List UserRow
  military_users : List MilitaryRow
  user_type_definitions : List TypeDefRow
  deriving DecidableEq, Repr

/-- Insert a row into `users`, with the engine enforcing the primary
key on `id` and the `unique=True` constraint on `email` (line 81). -/
def insertUser (db : DB) (r : UserRow) : Except DBError DB :=
  if ∃ u ∈ db.users, u.id = r.id then .error .UniqueViolation
  else if ∃ u ∈ db.users, u.email = r.email then .error .UniqueViolation
  else .ok { db with users := db.users ++ [r] }

/-- ORM insert of a `MilitaryUser` entity: joined-table inheritance
writes a base `users` row carrying the polymorphic identity
`"military_user"` (mapper args, lines 189-191) and a `military_users`
row with the same primary key value (line 179). -/
def insertMilitaryUser (db : DB) (r : UserRow) (ext : MilitaryRow) :
    Except DBError DB :=
  match insertUser db { r with user_type := some "military_user" } with
  | .error e => .error e
  | .ok db' =>
      if ∃ m ∈ db'.military_users, m.id = r.id then .error .UniqueViolation
      else .ok { db' with
                 military_users := db'.military_users ++ [{ ext with id := r.id }] }

/-- ORM delete of the user entity with primary key `uid`: joined-table
inheritance deletes the `military_users` extension row together with
the base `users` row. -/
def deleteUser (db : DB) (uid : Nat) : DB :=
  { db with
    users := db.users.filter (fun u => u.id ≠ uid)
    military_users := db.military_users.filter (fun m => m.id ≠ uid) }

/-- Insert a row into `user_type_definitions`, with the engine
enforcing `nullable=False` on `name` (line 30) and the primary key on
`id`.  No declared constraint examines the string's contents. -/
def insertTypeDef (db : DB) (r : TypeDefRow) : Except DBError DB :=
  if r.name = none then .error .NotNullViolation
  else if ∃ d ∈ db.user_type_definitions, d.id = r.id then .error .UniqueViolation
  else .ok { db with
             user_type_definitions := db.user_type_definitions ++ [r] }

/-- Pairwise-distinct email values across all `users` rows. -/
def EmailUnique (l : List UserRow) : Prop :=
  l.Pairwise (fun a b => a.email ≠ b.email)

/-- Pairwise-distinct primary keys in `users`. -/
def IdUnique (l : List UserRow) : Prop :=
  l.Pairwise (fun a b => a.id ≠ b.id)

/-- Pairwise-distinct primary keys in `military_users`. -/
def MilIdUnique (l : List MilitaryRow) : Prop :=
  l.Pairwise (fun a b => a.id ≠ b.id)

/-- Joined-table wellformedness: primary keys unique in both tables,
and every `military_users` row has a base `users` row with the same
primary key whose discriminator is `"military_user"`. -/
def DBWF (db : DB) : Prop :=
  IdUnique db.users ∧ MilIdUnique db.military_users ∧
  ∀ m ∈ db.military_users, ∃ u ∈ db.users,
    u.id = m.id ∧ u.user_type = some "military_user"

/-- Property bundle for claim C4: successful inserts preserve email
uniqueness (base users and military users alike), and an insert whose
email is already present is rejected with a uniqueness error. -/
def EmailUniquenessSpec (db : DB) (r : UserRow) (ext : MilitaryRow) : Prop :=
  (∀ db', insertUser db r = Except.ok db' → EmailUnique db'.users) ∧
  (∀ db', insertMilitaryUser db r ext = Except.ok db' → EmailUnique db'.users) ∧
  ((∃ u ∈ db.users, u.email = r.email) →
    insertUser db r = Except.error DBError.UniqueViolation ∧
    insertMilitaryUser db r ext = Except.error DBError.UniqueViolation)

/-- Property bundle for claim C6: after deleting the base user row with
identifier `uid`, no `military_users` row with that identifier remains,
and no extension row is left without its base row. -/
def DeleteCascadeSpec (db : DB) (uid : Nat) : Prop :=
  (∀ m ∈ (deleteUser db uid).military_users, m.id ≠ uid) ∧
  (∀ m ∈ (deleteUser db uid).military_users,
    ∃ u ∈ (deleteUser db uid).users, u.id = m.id)

/-- Property bundle for claim C7: every `military_users` row has exactly
one base `users` row with its primary key value, carrying the
discriminator `"military_user"`; and the ORM insert of a military user
preserves this wellformedness. -/
def SharedPKSpec (db : DB) (r : UserRow) (ext : MilitaryRow) : Prop :=
  (∀ m ∈ db.military_users, ∃ u,
    (u ∈ db.users ∧ u.id = m.id ∧ u.user_type = some "military_user") ∧
    ∀ u', u' ∈ db.users → u'.id = m.id → u' = u) ∧
  (∀ db', insertMilitaryUser db r ext = Except.ok db' → DBWF db')

/-- Property bundle for the amended claim C8: an absent (`NULL`) name is
rejected by `nullable=False`, and successful inserts preserve the
invariant that every persisted `user_type_definitions` row has a
present name. -/
def TypeDefNameSpec (db : DB) (r : TypeDefRow) : Prop :=
  (r.name = none → ∀ db', insertTypeDef db r ≠ Except.ok db') ∧
  (∀ db', insertTypeDef db r = Except.ok db' →
    ∀ d ∈ db'.user_type_definitions, d.name ≠ none)

/-! ## Entity base layer (`base_sqla_model.py`)

`BaseModel` gives every concrete entity a UUID primary key
(`default=uuid.uuid4, nullable=False`) and, through `TimeStampMixin`,
the audit columns `created_on` (`server_default=func.now(),
nullable=False`) and `updated_on` (`server_default=func.now(),
onupdate=func.now(), nullable=False`).  `DateTime` is modelled as
`Nat`; `Option` models SQL NULL. -/

/-- Model of `uuid.uuid4()` from the Python standard library: a fresh,
non-empty UUID string, modelled as a function of a generator seed. -/
def uuid4 (seed : Nat) : String :=
  "uuid-" ++ toString seed

/-- A persisted row of a concrete `BaseModel` subtype, restricted to
the base-layer columns. -/
structure EntityRow where
  id : String
  created_on : Option Nat
  updated_on : Option Nat
  deriving DecidableEq, Repr

/-- Creation of an entity at server time `t`: the identifier is
generated (`default=uuid.uuid4`, not caller-settable), and both audit
columns are filled by `server_default=func.now()` in the same insert
statement. -/
def createEntity (seed t : Nat) : EntityRow :=
  ⟨uuid4 seed, some t, some t⟩

/-- An update at server time `t`: `onupdate=func.now()` refreshes
`updated_on`; `id` and `created_on` are untouched. -/
def touchEntity (r : EntityRow) (t : Nat) : EntityRow :=
  { r with updated_on := some t }

/-- A sequence of updates applied in order. -/
def applyUpdates (r : EntityRow) : List Nat → EntityRow
  | [] => r
  | t :: ts => applyUpdates (touchEntity r t) ts

/-- Property bundle for claim C5: a freshly created entity has a
non-empty generated identifier and equal audit timestamps, and after
any sequence of updates at server times no earlier than the creation
time, both timestamps are non-null with `updated_on >= created_on` and
the identifier is unchanged. -/
def AuditColumnsSpec (seed t : Nat) (ts : List Nat) : Prop :=
  (createEntity seed t).id ≠ "" ∧
  (createEntity seed t).created_on = (createEntity seed t).updated_on ∧
  (applyUpdates (createEntity seed t) ts).id = uuid4 seed ∧
  (applyUpdates (createEntity seed t) ts).created_on = some t ∧
  ∃ u, (applyUpdates (createEntity seed t) ts).updated_on = some u ∧ t ≤ u

/-! ## API surface (`users_routes.py`, `users_pyda_model.py`) -/

/-- Embedding of the Pydantic `UserSchema` (users_pyda_model.py lines
5-15): the declared request/response shape for the user route.  UUIDs
and the JSON field bag are modelled with strings. -/
structure UserSchema where
  name : String
  email : String
  role : UserRole
  is_active : Bool
  user_type : String
  custom_type_definition_id : String
  custom_fields : List (String × String)
  id : String
  created_on : Nat
  updated_on : Nat
  deriving DecidableEq, Repr

/-- A route registration: HTTP method, full path, declared success
status code and declared response model. -/
structure RouteDecl where
  method : String
  fullPath : String
  status_code : Nat
  response_model : String
  deriving DecidableEq, Repr

/-- A router declaration: its path, tags, and the description of the
declared 404 response. -/
structure RouterDecl where
  basePath : String
  tags : List String
  responses404 : Option String
  deriving DecidableEq, Repr

/-- Embedding of the users `APIRouter` (users_routes.py lines 4-8). -/
def usersRouter : RouterDecl :=
  ⟨"/users", ["users"], some "User Not Found"⟩

/-- The routes registered on the users router: the single
`@router.post("/", response_model=UserSchema, status_code=201)`
registration (users_routes.py lines 10-14).  The full path joins the
router's path with the route's sub-path. -/
def usersRoutes : List RouteDecl :=
  [⟨"POST", usersRouter.basePath ++ "/", 201, "UserSchema"⟩]

/-- Embedding of the handler `create_user(user)` (users_routes.py lines
15-19): its body is empty, so the call returns Python `None` — no
response body is produced. -/
def create_user (_user : UserSchema) : Option UserSchema :=
  none

/-! ### Dict lemmas -/

theorem dictLookup_dictInsert_self {V : Type} (l : List (String × V)) (k : String) (v : V) :
    dictLookup (dictInsert l k v) k = some v := by
  induction l with
  | nil => simp [dictInsert, dictLookup]
  | cons hd tl ih =>
      obtain ⟨k', v'⟩ := hd
      by_cases h : k' = k
      · simp [dictInsert, dictLookup, h]
      · simp [dictInsert, dictLookup, h, ih]

theorem dictLookup_dictInsert_other {V : Type} (l : List (String × V)) (k k' : String)
    (v : V) (hne : k' ≠ k) :
    dictLookup (dictInsert l k v) k' = dictLookup l k' := by
  induction l with
  | nil => simp [dictInsert, dictLookup, Ne.symm hne]
  | cons hd tl ih =>
      obtain ⟨k₀, v₀⟩ := hd
      by_cases h : k₀ = k
      · subst h
        simp [dictInsert, dictLookup, Ne.symm hne]
      · simp only [dictInsert, if_neg h]
        by_cases h' : k₀ = k'
        · simp [dictLookup, h']
        · simp [dictLookup, h', ih]

theorem dictInsert_idem {V : Type} (l : List (String × V)) (k : String) (v : V) :
    dictInsert (dictInsert l k v) k v = dictInsert l k v := by
  induction l with
  | nil => simp [dictInsert]
  | cons hd tl ih =>
      obtain ⟨k', v'⟩ := hd
      by_cases h : k' = k
      · simp [dictInsert, h]
      · simp [dictInsert, h, ih]

theorem dictGet_of_lookup_some {V : Type} (l : List (String × V)) (k : String)
    (v dflt : V) (h : dictLookup l k = some v) :
    dictGet l k dflt = v := by
  induction l with
  | nil => simp [dictLookup] at h
  | cons hd tl ih =>
      obtain ⟨k', v'⟩ := hd
      by_cases hk : k' = k
      · simp [dictLookup, hk] at h
        simp [dictGet, hk, h]
      · simp [dictLookup, hk] at h
        simp [dictGet, hk, ih h]

theorem dictGet_of_not_mem {V : Type} (l : List (String × V)) (k : String)
    (dflt : V) (h : k ∉ dictKeys l) :
    dictGet l k dflt = dflt := by
  induction l with
  | nil => simp [dictGet]
  | cons hd tl ih =>
      obtain ⟨k', v'⟩ := hd
      simp [dictKeys] at h
      have hk : k' ≠ k := fun hk => h.1 hk.symm
      have htl : k ∉ dictKeys tl := by simp [dictKeys]; exact h.2
      simp [dictGet, hk, ih htl]

/-! ### Claim theorems: custom-field operations -/

/-- Claim C1: `set_custom_field`, for every user state, field name and
value, stores the value under that field name replacing any prior value,
leaves every other key unchanged, constructs and assigns a new document
object rather than mutating the existing one in place, marks the
document as changed via `flag_modified`, and initializes an empty
document first when `custom_fields` is absent (`None`). -/
theorem C1_set_custom_field {V : Type} (u : UserState V) (field_name : String)
    (value : V) (hwf : UserStateWF u) :
    SetCustomFieldSpec u field_name value := by
  unfold SetCustomFieldSpec
  match hu : u.custom_fields with
  | none =>
      refine ⟨⟨u.next_oid + 1, dictInsert [] field_name value⟩, ?_, ?_, ?_, ?_, ?_, ?_⟩
      · simp [set_custom_field, hu]
      · exact dictLookup_dictInsert_self _ _ _
      · intro k hk
        simp [customFieldsDoc, hu, dictLookup_dictInsert_other _ _ _ _ hk, dictLookup,
          Ne.symm hk]
      · simp [set_custom_field, hu, flag_modified]
      · intro d hd
        exact absurd hd (by simp)
      · intro _
        rfl
  | some d =>
      refine ⟨⟨u.next_oid, dictInsert d.entries field_name value⟩, ?_, ?_, ?_, ?_, ?_, ?_⟩
      · simp [set_custom_field, hu]
      · exact dictLookup_dictInsert_self _ _ _
      · intro k hk
        simp [customFieldsDoc, hu, dictLookup_dictInsert_other _ _ _ _ hk]
      · simp [set_custom_field, hu, flag_modified]
      · intro d₀ hd₀
        injection hd₀ with h
        subst h
        exact Nat.ne_of_gt (hwf d hu)
      · intro hnone
        exact absurd hnone (by simp)

/-- Claim C1 witness: the property at a concrete user state. -/
theorem C1_set_custom_field_witness :
    SetCustomFieldSpec (⟨some ⟨0, [("a", 1)]⟩, [], 1⟩ : UserState Nat) "a" 2 :=
  C1_set_custom_field _ _ _ (by intro d hd; cases hd; decide)

/-- Claim C2: applying `set_custom_field` with the same field/value pair
twice yields the same final `custom_fields` document as applying it
once. -/
theorem C2_set_custom_field_idem {V : Type} (u : UserState V) (field_name : String)
    (value : V) :
    customFieldsDoc (set_custom_field (set_custom_field u field_name value) field_name value) =
      customFieldsDoc (set_custom_field u field_name value) := by
  match hu : u.custom_fields with
  | none => simp [set_custom_field, hu, customFieldsDoc, dictInsert_idem]
  | some d => simp [set_custom_field, hu, customFieldsDoc, dictInsert_idem]

/-- Claim C10: `get_custom_field` is total, leaves the user state
unchanged, returns the supplied default when the document is absent or
does not contain the field name, and otherwise returns the stored
value. -/
theorem C10_get_custom_field {V : Type} (u : UserState V) (field_name : String)
    (dflt : V) :
    GetCustomFieldSpec u field_name dflt := by
  unfold GetCustomFieldSpec
  match hu : u.custom_fields with
  | none =>
      refine ⟨by simp [get_custom_field, hu], fun _ => by simp [get_custom_field, hu], ?_, ?_⟩
      · intro d hd
        exact absurd hd (by simp)
      · intro d v hd
        exact absurd hd (by simp)
  | some d =>
      refine ⟨by simp [get_custom_field, hu], ?_, ?_, ?_⟩
      · intro h
        exact absurd h (by simp)
      · intro d₀ hd₀ hmem
        injection hd₀ with h
        subst h
        simp [get_custom_field, hu, dictGet_of_not_mem _ _ _ hmem]
      · intro d₀ v hd₀ hlk
        injection hd₀ with h
        subst h
        simp [get_custom_field, hu, dictGet_of_lookup_some _ _ _ _ hlk]

/-- Claim C10 witness: the property at a concrete user state. -/
theorem C10_get_custom_field_witness :
    GetCustomFieldSpec (⟨some ⟨0, [("a", 1)]⟩, [], 1⟩ : UserState Nat) "a" 7 :=
  C10_get_custom_field _ _ _

/-! ### List lemmas for the relational model -/

theorem pairwise_key_unique {α β : Type} (f : α → β) {l : List α}
    (hp : l.Pairwise (fun a b => f a ≠ f b)) {u u' : α}
    (hu : u ∈ l) (hu' : u' ∈ l) (heq : f u = f u') : u = u' := by
  induction l with
  | nil => cases hu
  | cons hd tl ih =>
      rw [List.pairwise_cons] at hp
      cases hu with
      | head =>
          cases hu' with
          | head => rfl
          | tail _ h' => exact absurd heq (hp.1 u' h')
      | tail _ h =>
          cases hu' with
          | head => exact absurd heq.symm (hp.1 u h)
          | tail _ h' => exact ih hp.2 h h'

theorem pairwise_ne_append_singleton {α β : Type} {f : α → β} {l : List α} {x : α}
    (h : l.Pairwise (fun a b => f a ≠ f b)) (hx : ∀ a ∈ l, f a ≠ f x) :
    (l ++ [x]).Pairwise (fun a b => f a ≠ f b) := by
  rw [List.pairwise_append]
  refine ⟨h, List.pairwise_singleton _ _, fun a ha b hb => ?_⟩
  rcases List.mem_singleton.mp hb with rfl
  exact hx a ha

/-! ### Claim theorems: relational schema -/

/-- Claim C4: successful user inserts (plain and military) preserve
pairwise-distinct emails across all users, and inserting a user whose
email is already present is rejected with a uniqueness error. -/
theorem C4_email_uniqueness (db : DB) (r : UserRow) (ext : MilitaryRow)
    (h : EmailUnique db.users) :
    EmailUniquenessSpec db r ext := by
  by_cases hid : ∃ u ∈ db.users, u.id = r.id
  · refine ⟨?_, ?_, fun _ => ⟨?_, ?_⟩⟩
    · intro db' hdb'
      simp [insertUser, hid] at hdb'
    · intro db' hdb'
      simp [insertMilitaryUser, insertUser, hid] at hdb'
    · simp [insertUser, hid]
    · simp [insertMilitaryUser, insertUser, hid]
  · by_cases hem : ∃ u ∈ db.users, u.email = r.email
    · refine ⟨?_, ?_, fun _ => ⟨?_, ?_⟩⟩
      · intro db' hdb'
        simp [insertUser, hid, hem] at hdb'
      · intro db' hdb'
        simp [insertMilitaryUser, insertUser, hid, hem] at hdb'
      · simp [insertUser, hid, hem]
      · simp [insertMilitaryUser, insertUser, hid, hem]
    · have hap : EmailUnique (db.users ++ [{ r with user_type := some "military_user" }]) :=
        pairwise_ne_append_singleton h (fun u hu he => hem ⟨u, hu, he⟩)
      have hap' : EmailUnique (db.users ++ [r]) :=
        pairwise_ne_append_singleton h (fun u hu he => hem ⟨u, hu, he⟩)
      refine ⟨?_, ?_, fun hc => absurd hc hem⟩
      · intro db' hdb'
        simp [insertUser, hid, hem] at hdb'
        rw [← hdb']
        exact hap'
      · intro db' hdb'
        by_cases hm : ∃ m ∈ db.military_users, m.id = r.id
        · simp [insertMilitaryUser, insertUser, hid, hem, hm] at hdb'
        · simp [insertMilitaryUser, insertUser, hid, hem, hm] at hdb'
          rw [← hdb']
          exact hap

/-- Claim C4 witness: the property at a concrete database state. -/
theorem C4_email_uniqueness_witness :
    EmailUniquenessSpec ⟨[], [], []⟩ ⟨1, "a@x", none⟩ ⟨0, none⟩ :=
  C4_email_uniqueness ⟨[], [], []⟩ ⟨1, "a@x", none⟩ ⟨0, none⟩ List.Pairwise.nil

/-- Claim C6: after the delete operation on the base user row with a
given identifier, no `military_users` row remains with that identifier,
and no extension row is ever left without its base row. -/
theorem C6_delete_cascade (db : DB) (uid : Nat)
    (h : ∀ m ∈ db.military_users, ∃ u ∈ db.users, u.id = m.id) :
    DeleteCascadeSpec db uid := by
  constructor
  · intro m hm
    simp only [deleteUser, List.mem_filter, decide_eq_true_eq] at hm
    exact hm.2
  · intro m hm
    simp only [deleteUser, List.mem_filter, decide_eq_true_eq] at hm
    obtain ⟨u, hu, huid⟩ := h m hm.1
    refine ⟨u, ?_, huid⟩
    simp only [deleteUser, List.mem_filter, decide_eq_true_eq]
    exact ⟨hu, by rw [huid]; exact hm.2⟩

/-- Claim C6 witness: the property at a concrete database state. -/
theorem C6_delete_cascade_witness :
    DeleteCascadeSpec ⟨[⟨1, "a@x", some "military_user"⟩], [⟨1, none⟩], []⟩ 1 :=
  C6_delete_cascade _ 1 (by decide)

/-- Claim C7: in a well-formed database every `military_users` row has
exactly one base `users` row sharing its primary key value, carrying
the discriminator `"military_user"`; and the ORM insert of a military
user preserves this well-formedness. -/
theorem C7_shared_primary_key (db : DB) (r : UserRow) (ext : MilitaryRow)
    (hwf : DBWF db) :
    SharedPKSpec db r ext := by
  obtain ⟨hidu, hmilu, hfk⟩ := hwf
  constructor
  · intro m hm
    obtain ⟨u, hu, huid, hut⟩ := hfk m hm
    refine ⟨u, ⟨hu, huid, hut⟩, ?_⟩
    intro u' hu' huid'
    exact pairwise_key_unique UserRow.id hidu hu' hu (huid'.trans huid.symm)
  · intro db' hdb'
    by_cases hid : ∃ u ∈ db.users, u.id = r.id
    · simp [insertMilitaryUser, insertUser, hid] at hdb'
    · by_cases hem : ∃ u ∈ db.users, u.email = r.email
      · simp [insertMilitaryUser, insertUser, hid, hem] at hdb'
      · by_cases hm : ∃ m ∈ db.military_users, m.id = r.id
        · simp [insertMilitaryUser, insertUser, hid, hem, hm] at hdb'
        · simp [insertMilitaryUser, insertUser, hid, hem, hm] at hdb'
          rw [← hdb']
          refine ⟨?_, ?_, ?_⟩
          · exact pairwise_ne_append_singleton hidu (fun u hu he => hid ⟨u, hu, he⟩)
          · exact pairwise_ne_append_singleton hmilu (fun m hmm he => hm ⟨m, hmm, he⟩)
          · intro m hmm
            rcases List.mem_append.mp hmm with hmm | hmm
            · obtain ⟨u, hu, huid, hut⟩ := hfk m hmm
              exact ⟨u, List.mem_append_left _ hu, huid, hut⟩
            · rcases List.mem_singleton.mp hmm with rfl
              refine ⟨{ r with user_type := some "military_user" },
                List.mem_append_right _ (List.mem_singleton_self _), rfl, rfl⟩

/-- Claim C7 witness: the property at a concrete database state. -/
theorem C7_shared_primary_key_witness :
    SharedPKSpec ⟨[], [], []⟩ ⟨1, "a@x", none⟩ ⟨0, none⟩ :=
  C7_shared_primary_key ⟨[], [], []⟩ ⟨1, "a@x", none⟩ ⟨0, none⟩
    ⟨List.Pairwise.nil, List.Pairwise.nil, by simp⟩

/-- Claim C8 counterexample: the storage layer does not reject a
`UserTypeDefinition` whose name is the empty string — inserting a row
with `name = ""` succeeds, so a persisted row with an empty name
exists. -/
theorem C8_empty_name_accepted :
    ∃ db', insertTypeDef ⟨[], [], []⟩ ⟨0, some "", true⟩ = Except.ok db' ∧
      ∃ d ∈ db'.user_type_definitions, d.name = some "" := by
  refine ⟨⟨[], [], [⟨0, some "", true⟩]⟩, rfl, ⟨0, some "", true⟩, by simp, rfl⟩

/-- Claim C8 amended: the storage layer rejects a `UserTypeDefinition`
whose name is absent (`NULL`, via `nullable=False`), and every
persisted row has a present (non-`NULL`) name; the empty string is not
rejected by storage. -/
theorem C8_typedef_name_not_null (db : DB) (r : TypeDefRow)
    (h : ∀ d ∈ db.user_type_definitions, d.name ≠ none) :
    TypeDefNameSpec db r := by
  constructor
  · intro hn db' hdb'
    simp [insertTypeDef, hn] at hdb'
  · intro db' hdb'
    by_cases hn : r.name = none
    · simp [insertTypeDef, hn] at hdb'
    · by_cases hidd : ∃ d ∈ db.user_type_definitions, d.id = r.id
      · simp [insertTypeDef, hn, hidd] at hdb'
      · simp [insertTypeDef, hn, hidd] at hdb'
        rw [← hdb']
        intro d hd
        rcases List.mem_append.mp hd with hd | hd
        · exact h d hd
        · rcases List.mem_singleton.mp hd with rfl
          exact hn

/-- Claim C8 witness: the amended property at a concrete state. -/
theorem C8_typedef_name_not_null_witness :
    TypeDefNameSpec ⟨[], [], []⟩ ⟨0, some "x", true⟩ :=
  C8_typedef_name_not_null ⟨[], [], []⟩ ⟨0, some "x", true⟩ (by simp)

/-! ### Claim theorems: entity base layer -/

theorem uuid4_ne_empty (seed : Nat) : uuid4 seed ≠ "" := by
  intro hcon
  have h2 := congrArg String.length hcon
  rw [uuid4, String.length_append] at h2
  have h5 : ("uuid-" : String).length = 5 := rfl
  have h0 : ("" : String).length = 0 := rfl
  rw [h5, h0] at h2
  omega

theorem applyUpdates_spec (ts : List Nat) (r : EntityRow) (t : Nat)
    (hts : ∀ x ∈ ts, t ≤ x) (hc : r.created_on = some t)
    (hu : ∃ u, r.updated_on = some u ∧ t ≤ u) :
    (applyUpdates r ts).id = r.id ∧
    (applyUpdates r ts).created_on = some t ∧
    ∃ u, (applyUpdates r ts).updated_on = some u ∧ t ≤ u := by
  induction ts generalizing r with
  | nil => exact ⟨rfl, hc, hu⟩
  | cons x ts ih =>
      have h1 : ∀ y ∈ ts, t ≤ y := fun y hy => hts y (List.mem_cons_of_mem _ hy)
      have h2 := ih (touchEntity r x) h1 hc ⟨x, rfl, hts x (List.mem_cons_self _ _)⟩
      simpa [applyUpdates, touchEntity] using h2

/-- Claim C5: a freshly created entity has a non-empty generated
identifier and `created_on = updated_on`, and after any sequence of
updates at server times no earlier than the creation time both audit
timestamps are non-null with `created_on <= updated_on` and the
identifier is unchanged. -/
theorem C5_audit_columns (seed t : Nat) (ts : List Nat)
    (hts : ∀ x ∈ ts, t ≤ x) :
    AuditColumnsSpec seed t ts := by
  obtain ⟨hid, hc, hu⟩ :=
    applyUpdates_spec ts (createEntity seed t) t hts rfl ⟨t, rfl, Nat.le_refl t⟩
  exact ⟨uuid4_ne_empty seed, rfl, hid, hc, hu⟩

/-- Claim C5 witness: the property at a concrete creation time and
update sequence. -/
theorem C5_audit_columns_witness : AuditColumnsSpec 0 3 [4, 7] :=
  C5_audit_columns 0 3 [4, 7] (by decide)

/-! ### Claim theorems: enum persistence -/

/-- Claim C3 counterexample: the `branch` column does not store the
member's lowercase value string.  For `MilitaryBranch.ARMY` the stored
string is the member name `"ARMY"`, not the value `"army"`. -/
theorem C3_branch_stored_counterexample :
    branchStoredValue MilitaryBranch.ARMY = "ARMY" ∧
    MilitaryBranch.ARMY.value = "army" ∧
    branchStoredValue MilitaryBranch.ARMY ≠ MilitaryBranch.ARMY.value := by
  refine ⟨rfl, rfl, ?_⟩
  decide

/-- Claim C3 amended: the `role` column stores the member's lowercase
value (`"admin"`/`"user"`, via `values_callable`), while the `branch`
column, declared without `values_callable`, stores the member's
uppercase name (`"ARMY"`, `"NAVY"`, `"AIR_FORCE"`, `"MARINES"`,
`"SPACE_FORCE"`, `"COAST_GUARD"`) and never the lowercase value. -/
theorem C3_enum_stored_values :
    (∀ r : UserRole, roleStoredValue r = r.value) ∧
    roleStoredValue UserRole.ADMIN = "admin" ∧
    roleStoredValue UserRole.USER = "user" ∧
    branchStoredValue MilitaryBranch.ARMY = "ARMY" ∧
    branchStoredValue MilitaryBranch.NAVY = "NAVY" ∧
    branchStoredValue MilitaryBranch.AIR_FORCE = "AIR_FORCE" ∧
    branchStoredValue MilitaryBranch.MARINES = "MARINES" ∧
    branchStoredValue MilitaryBranch.SPACE_FORCE = "SPACE_FORCE" ∧
    branchStoredValue MilitaryBranch.COAST_GUARD = "COAST_GUARD" ∧
    (∀ b : MilitaryBranch, branchStoredValue b ≠ b.value) := by
  refine ⟨fun r => rfl, rfl, rfl, rfl, rfl, rfl, rfl, rfl, rfl, fun b => ?_⟩
  cases b <;> decide

/-! ### Claim theorems: API surface -/

/-- Claim C9: the HTTP surface registers exactly one user route — POST
at full path "/users/", declared to return status 201 Created with the
user schema as response model — the router declares a 404 response
described exactly "User Not Found", and the handler produces no
body. -/
theorem C9_user_routes :
    usersRoutes = [⟨"POST", "/users/", 201, "UserSchema"⟩] ∧
    usersRouter.responses404 = some "User Not Found" ∧
    ∀ u : UserSchema, create_user u = none := by
  refine ⟨?_, rfl, fun u => rfl⟩
  decide

end AngryPlatypus
